import Mathlib

/-!
Shallow embedding of `call_with_payload.py`: a CLI script that loads a JSON
payload, normalizes it into a Bedrock Converse request, issues one API call
and renders the response to the console.  Console output is modelled as a
`List String`, one entry per `print` call of the script.  Python dictionaries
read through `.get` are modelled with `Option` fields (`none` = key absent).
-/

/-- JSON values as they occur inside a payload.  Numbers are modelled as
rationals (the script never computes with them, it only passes them through
and displays them). -/
inductive JVal where
  | jnull : JVal
  | jbool : Bool → JVal
  | jnum : Rat → JVal
  | jstr : String → JVal
  | jarr : List JVal → JVal
  | jobj : List (String × JVal) → JVal
deriving Repr

/-- A content block of a conversation message (`content[k]`); the script only
reads its `text` key, with `''` as default. -/
structure ContentBlock where
  text : Option String
deriving Repr

/-- A conversation turn: `role` and `content` keys read via `.get`. -/
structure Message where
  role : Option String
  content : Option (List ContentBlock)
deriving Repr

/-- A system prompt segment; the script reads only its `text` key. -/
structure SysBlock where
  text : Option String
deriving Repr

/-- `tool['toolSpec']`: the script reads `name` and `description`. -/
structure ToolSpec where
  name : Option String
  description : Option String
deriving Repr

/-- One entry of `toolConfig.tools`. -/
structure Tool where
  toolSpec : Option ToolSpec
deriving Repr

/-- The `toolConfig` mapping: an optional `tools` key plus the names of any
other keys it holds (Python dict truthiness is emptiness of the whole dict,
not of `tools` alone). -/
structure ToolConfig where
  tools : Option (List Tool)
  extraKeys : List String
deriving Repr

/-- The decoded payload document.  `none` on a field means the key is absent
from the JSON object (`payload.get(k, default)` supplies the default). -/
structure Payload where
  system : Option (List SysBlock)
  messages : Option (List Message)
  toolConfig : Option ToolConfig
  inferenceConfig : Option (List (String × JVal))
deriving Repr

/-- The default model ID used when no `--model-id` is supplied (line 22). -/
def defaultModelId : String := "us.anthropic.claude-3-7-sonnet-20250219-v1:0"

/-- The default inference configuration substituted by lines 65-69. -/
def defaultInferenceConfig : List (String × JVal) :=
  [("maxTokens", JVal.jnum 4096), ("temperature", JVal.jnum (7 / 10))]

/-- Lines 62-69: `inference_config = payload.get('inferenceConfig', {})`
followed by `if not inference_config: inference_config = {...}`.
An absent key and an empty mapping are both falsy and replaced wholesale;
any non-empty mapping is passed through untouched. -/
def normInferenceConfig (raw : Option (List (String × JVal))) :
    List (String × JVal) :=
  let cfg := raw.getD []
  if cfg.isEmpty then defaultInferenceConfig else cfg

/-- `get_common_model_ids` (lines 194-203): the model shortcut table. -/
def commonModelIds : List (String × String) :=
  [("claude-3.7-sonnet", "us.anthropic.claude-3-7-sonnet-20250219-v1:0"),
   ("claude-3.5-sonnet", "us.anthropic.claude-3-5-sonnet-20241022-v2:0"),
   ("claude-3.5-haiku", "us.anthropic.claude-3-5-haiku-20241022-v1:0"),
   ("claude-3-opus", "us.anthropic.claude-3-opus-20240229-v1:0"),
   ("claude-3-sonnet", "us.anthropic.claude-3-sonnet-20240229-v1:0"),
   ("claude-3-haiku", "us.anthropic.claude-3-haiku-20240307-v1:0")]

/-- Lines 256-259 of `__main__`: a shortcut found in the table is replaced by
its fully qualified model ID, any other string is passed through unchanged. -/
def resolveModelId (m : String) : String :=
  match commonModelIds.lookup m with
  | some full => full
  | none => m

/-- Python slicing `s[:n]` on a string: the first `n` code points. -/
def pyTake (s : String) (n : Nat) : String :=
  String.mk (s.data.take n)

/-- The display-truncation idiom used at lines 87, 94 and 103:
`s[:n] + ('...' if len(s) > n else '')`. -/
def truncPreview (n : Nat) (s : String) : String :=
  pyTake s n ++ (if n < s.length then "..." else "")

/-- Python `f.endswith(pat)`. -/
def pyEndsWith (s pat : String) : Bool :=
  pat.data.isSuffixOf s.data

/-- Substring test on code-point lists, as Python `pat in s`. -/
def containsSubAux (pat : List Char) : List Char → Bool
  | [] => pat.isPrefixOf ([] : List Char)
  | c :: cs => pat.isPrefixOf (c :: cs) || containsSubAux pat cs

/-- Python `pat in s` for strings. -/
def strContainsSub (s pat : String) : Bool :=
  containsSubAux pat.data s.data

/-- Python `s.lower()`: per-code-point lowercasing (the error patterns are
all ASCII). -/
def pyLower (s : String) : String :=
  String.mk (s.data.map Char.toLower)

/-- The model/region troubleshooting hint block (lines 178-181). -/
def modelHints (modelId region : String) : List String :=
  ["\n💡 Troubleshooting tips:",
   "   - Check if the model ID is correct: " ++ modelId,
   "   - Ensure the model is available in your region: " ++ region,
   "   - Verify you have access to this model in AWS Bedrock console"]

/-- The credentials/IAM troubleshooting hint block (lines 183-186). -/
def accessHints : List String :=
  ["\n💡 Troubleshooting tips:",
   "   - Check your AWS credentials and permissions",
   "   - Ensure you have bedrock:InvokeModel permission",
   "   - Verify model access in AWS Bedrock console"]

/-- Lines 176-186: classification of the error text.  The text is lowercased
(`str(e).lower()`); the model-validation branch (`"validationexception" in e
and "model" in e`) takes precedence over the access-denied branch via
`elif`. -/
def errorHints (modelId region errText : String) : List String :=
  let e := pyLower errText
  if strContainsSub e "validationexception" && strContainsSub e "model" then
    modelHints modelId region
  else if strContainsSub e "accessdenied" then
    accessHints
  else
    []

/-- `"=" * 60`. -/
def sep60 : String := String.mk (List.replicate 60 '=')

/-- `"-" * 40`. -/
def dash40 : String := String.mk (List.replicate 40 '-')

/-- `n` spaces. -/
def repSp (n : Nat) : String := String.mk (List.replicate n ' ')

/-- Python `f"{n:,}"`: decimal digits grouped in threes with commas, built by
inserting a comma after every third digit of the reversed digit string. -/
def groupRev : List Char → List Char
  | a :: b :: c :: d :: rest => a :: b :: c :: ',' :: groupRev (d :: rest)
  | l => l

/-- Thousands-separated rendering of a token count. -/
def fmtThousands (n : Nat) : String :=
  String.mk ((groupRev (toString n).data.reverse).reverse)

/-- Display of a rational the way Python shows the number (integers without a
fractional part; non-integral values are approximated by the `Rat`
rendering). -/
def ratRepr (q : Rat) : String :=
  if q.den = 1 then toString q.num else toString q

/-- JSON string escaping for `json.dumps` (the common escapes). -/
def escChar (c : Char) : String :=
  if c = '"' then "\\\""
  else if c = '\\' then "\\\\"
  else if c = '\n' then "\\n"
  else if c = '\t' then "\\t"
  else if c = '\r' then "\\r"
  else String.mk [c]

/-- Escape every character of a string for JSON output. -/
def jsonEscape (s : String) : String :=
  String.join (s.data.map escChar)

mutual

/-- `json.dumps(v, indent=2)` at indentation level `ind`. -/
def jdump (ind : Nat) : JVal → String
  | .jnull => "null"
  | .jbool true => "true"
  | .jbool false => "false"
  | .jnum q => ratRepr q
  | .jstr s => "\"" ++ jsonEscape s ++ "\""
  | .jarr [] => "[]"
  | .jarr (x :: xs) =>
    "[\n" ++ jdumpArr (ind + 2) x xs ++ "\n" ++ repSp ind ++ "]"
  | .jobj [] => "\x7b\x7d"
  | .jobj ((k, v) :: fs) =>
    "\x7b\n" ++ jdumpObj (ind + 2) k v fs ++ "\n" ++ repSp ind ++ "\x7d"
termination_by v => sizeOf v

/-- Comma-and-newline separated array elements. -/
def jdumpArr (ind : Nat) (x : JVal) (xs : List JVal) : String :=
  match xs with
  | [] => repSp ind ++ jdump ind x
  | y :: ys => repSp ind ++ jdump ind x ++ ",\n" ++ jdumpArr ind y ys
termination_by 1 + sizeOf x + sizeOf xs

/-- Comma-and-newline separated object fields. -/
def jdumpObj (ind : Nat) (k : String) (v : JVal)
    (fs : List (String × JVal)) : String :=
  match fs with
  | [] => repSp ind ++ "\"" ++ jsonEscape k ++ "\": " ++ jdump ind v
  | (k2, v2) :: gs =>
    repSp ind ++ "\"" ++ jsonEscape k ++ "\": " ++ jdump ind v ++ ",\n" ++
      jdumpObj ind k2 v2 gs
termination_by 2 + sizeOf v + sizeOf fs

end

/-- Python `str()`/f-string display of a JSON value (used only in the payload
summary lines; container display is approximated, no claim inspects it). -/
def pyStr : JVal → String
  | .jnull => "None"
  | .jbool true => "True"
  | .jbool false => "False"
  | .jnum q => ratRepr q
  | .jstr s => s
  | .jarr _ => "[...]"
  | .jobj _ => "\x7b...\x7d"

/-- `inference_config.get(key, 'default')` as displayed in the summary. -/
def jvalDisplay (v : Option JVal) : String :=
  match v with
  | some x => pyStr x
  | none => "default"

/-- Lines 81-88, loop body: a message produces one preview line when its
`content` value is a non-empty list, and no line otherwise; the line shows
the 1-based index, the uppercased role (`'unknown'` when absent) and the
first block's text truncated to 100 characters. -/
def msgPreviewLine (i : Nat) (m : Message) : List String :=
  match m.content.getD [] with
  | [] => []
  | c :: _ =>
    ["   " ++ toString i ++ ". " ++ (m.role.getD "unknown").toUpper ++ ": " ++
      truncPreview 100 (c.text.getD "")]

/-- Lines 79-88: the conversation-history preview (header plus per-message
lines), empty when there are no messages. -/
def convHistory (messages : List Message) : List String :=
  if messages.isEmpty then []
  else
    "\n💬 Conversation History:" ::
      (List.enumFrom 1 messages).flatMap (fun p => msgPreviewLine p.1 p.2)

/-- Lines 91-95: the system-prompt preview (first segment, 150-char limit). -/
def systemPreview (system : List SysBlock) : List String :=
  match system with
  | [] => []
  | s0 :: _ =>
    ["\n🎯 System Prompt Preview:", "   " ++ truncPreview 150 (s0.text.getD "")]

/-- Line 103: one line per tool with name and 80-char-truncated description. -/
def toolLine (t : Tool) : String :=
  let spec := t.toolSpec.getD ⟨none, none⟩
  "   - " ++ spec.name.getD "Unknown" ++ ": " ++
    truncPreview 80 (spec.description.getD "No description")

/-- Lines 98-103: the tool-availability preview, shown only when
`tool_config.get('tools')` is truthy (present and non-empty). -/
def toolsPreview (tc : ToolConfig) : List String :=
  match tc.tools with
  | none => []
  | some [] => []
  | some ts => "\n🔧 Available Tools:" :: ts.map toolLine

/-- A content block of the model's response message. -/
inductive RespBlock where
  | textBlock : String → RespBlock
  | toolUseBlock : Option String → Option String →
      Option (List (String × JVal)) → RespBlock
  | otherBlock : RespBlock
deriving Repr

/-- `response["output"]["message"]`. -/
structure RespMessage where
  content : Option (List RespBlock)
deriving Repr

/-- `response.get('usage', {})` with each count read via `.get(k, 0)`. -/
structure Usage where
  inputTokens : Option Nat
  outputTokens : Option Nat
  totalTokens : Option Nat
  cacheReadInputTokens : Option Nat
  cacheWriteInputTokens : Option Nat
deriving Repr

/-- The Converse API response as the renderer reads it.  `outputMessage` is
`some` exactly when both `"output" in response` and `"message" in
response["output"]` hold. -/
structure Response where
  outputMessage : Option RespMessage
  usage : Usage
  stopReason : Option String
deriving Repr

/-- Lines 134-141: rendering of one response content block. -/
def renderBlock : RespBlock → List String
  | .textBlock t => [t]
  | .toolUseBlock name id input =>
    ["\n🔧 Tool Call: " ++ name.getD "Unknown",
     "   Tool ID: " ++ id.getD "N/A",
     "   Input: " ++ jdump 0 (JVal.jobj (input.getD []))]
  | .otherBlock => []

/-- `"toolUse" in content_block`. -/
def isToolUse : RespBlock → Bool
  | .toolUseBlock _ _ _ => true
  | _ => false

/-- Lines 144-154: the token-usage lines.  The three totals are always
printed; the cache lines appear only when their count (defaulting to 0 when
the key is missing) is strictly positive. -/
def usageLines (u : Usage) : List String :=
  ["   - Input tokens: " ++ fmtThousands (u.inputTokens.getD 0),
   "   - Output tokens: " ++ fmtThousands (u.outputTokens.getD 0),
   "   - Total tokens: " ++ fmtThousands (u.totalTokens.getD 0)] ++
  (if 0 < u.cacheReadInputTokens.getD 0 then
    ["   - Cache read tokens: " ++ fmtThousands (u.cacheReadInputTokens.getD 0)]
   else []) ++
  (if 0 < u.cacheWriteInputTokens.getD 0 then
    ["   - Cache write tokens: " ++
      fmtThousands (u.cacheWriteInputTokens.getD 0)]
   else [])

/-- Lines 157-166: the advisory note shown when the response contains
tool-use blocks. -/
def toolCallNote (blocks : List RespBlock) : List String :=
  let n := (blocks.filter isToolUse).length
  if 0 < n then
    ["\n⚠️  Note: Model made " ++ toString n ++ " tool call(s).",
     "   In a real implementation, you would need to:",
     "   1. Execute each tool with the provided input",
     "   2. Add tool results to the conversation",
     "   3. Continue the conversation with the model"]
  else []

/-- Lines 127-170: rendering of a successful response. -/
def renderResponse (resp : Response) : List String :=
  (match resp.outputMessage with
   | none => []
   | some m =>
     "🤖 Model Response:" :: dash40 ::
       (match m.content with
        | none => []
        | some blocks => blocks.flatMap renderBlock)) ++
  ("\n📊 Token Usage:" :: usageLines resp.usage) ++
  (match resp.outputMessage with
   | none => []
   | some m =>
     match m.content with
     | none => []
     | some blocks => toolCallNote blocks) ++
  ["\n🛑 Stop Reason: " ++ resp.stopReason.getD "unknown"]

/-- The values stored in the `api_params` dictionary. -/
inductive ParamVal where
  | pModelId : String → ParamVal
  | pMessages : List Message → ParamVal
  | pInf : List (String × JVal) → ParamVal
  | pSystem : List SysBlock → ParamVal
  | pTool : ToolConfig → ParamVal
deriving Repr

/-- Python truthiness of the `toolConfig` dict: it is non-empty, i.e. it has
the `tools` key or any other key. -/
def tcTruthy (tc : ToolConfig) : Bool :=
  tc.tools.isSome || !tc.extraKeys.isEmpty

/-- Lines 110-120: assembly of `api_params`.  `modelId`, `messages` and
`inferenceConfig` are always present; `system` is added when the list is
truthy (non-empty), `toolConfig` when the dict is truthy (non-empty). -/
def buildApiParams (modelId : String) (messages : List Message)
    (cfg : List (String × JVal)) (system : List SysBlock) (tc : ToolConfig) :
    List (String × ParamVal) :=
  [("modelId", ParamVal.pModelId modelId),
   ("messages", ParamVal.pMessages messages),
   ("inferenceConfig", ParamVal.pInf cfg)] ++
  (if system.isEmpty then [] else [("system", ParamVal.pSystem system)]) ++
  (if tcTruthy tc then [("toolConfig", ParamVal.pTool tc)] else [])

/-- Outcome of `json.load` at lines 44-52 (when the file exists):
a well-formed payload, a `json.JSONDecodeError`, or another read error. -/
inductive LoadOutcome where
  | ok : Payload → LoadOutcome
  | parseError : String → LoadOutcome
  | readError : String → LoadOutcome

/-- The ambient world of one invocation: the file system as the script
observes it, the resolved region (`os.getenv('AWS_REGION', 'us-east-1')`),
and the Bedrock service as an oracle from the assembled request to a
response or an error message. -/
structure Env where
  fileExists : Bool
  cwd : String
  cwdListing : List String
  loadResult : LoadOutcome
  region : String
  converse : List (String × ParamVal) → Except String Response

/-- Lines 31-41: the missing-file diagnostic. -/
def notFoundTrace (env : Env) (payloadFile : String) : List String :=
  ["❌ Error: Payload file '" ++ payloadFile ++ "' not found",
   "📁 Current directory: " ++ env.cwd,
   "📋 Available JSON files:"] ++
  (let js := env.cwdListing.filter (fun f => pyEndsWith f ".json")
   if js.isEmpty then ["   - No JSON files found in current directory"]
   else js.map (fun f => "   - " ++ f))

/-- `call_converse_with_payload` (lines 17-192).  Returns the console trace
(one entry per `print`), whether the network call was issued (line 124 was
reached), and the returned success flag. -/
def runCall (env : Env) (payloadFile : String) (modelIdArg : Option String) :
    List String × Bool × Bool :=
  let modelId := modelIdArg.getD defaultModelId
  if env.fileExists = false then
    (notFoundTrace env payloadFile, false, false)
  else
    match env.loadResult with
    | .parseError m =>
      (["❌ Error: Invalid JSON in '" ++ payloadFile ++ "' - " ++ m],
       false, false)
    | .readError m =>
      (["❌ Error reading '" ++ payloadFile ++ "': " ++ m], false, false)
    | .ok payload =>
      let system := payload.system.getD []
      let messages := payload.messages.getD []
      let toolConfig := payload.toolConfig.getD ⟨none, []⟩
      let inferenceConfig := normInferenceConfig payload.inferenceConfig
      let pre :=
        ["📋 Loaded payload from: " ++ payloadFile,
         "🤖 Using model: " ++ modelId,
         sep60,
         "📊 Payload Summary:",
         "   - System prompts: " ++ toString system.length,
         "   - Messages: " ++ toString messages.length,
         "   - Tools available: " ++
           toString (toolConfig.tools.getD []).length,
         "   - Max tokens: " ++
           jvalDisplay (inferenceConfig.lookup "maxTokens"),
         "   - Temperature: " ++
           jvalDisplay (inferenceConfig.lookup "temperature")] ++
        convHistory messages ++
        systemPreview system ++
        toolsPreview toolConfig ++
        ["\n" ++ sep60, "🚀 Calling Bedrock Converse API...", sep60]
      let apiParams :=
        buildApiParams modelId messages inferenceConfig system toolConfig
      match env.converse apiParams with
      | .error e =>
        (pre ++ ("❌ Error calling Converse API: " ++ e) ::
           errorHints modelId env.region e, true, false)
      | .ok resp =>
        (pre ++ renderResponse resp ++
           ["\n" ++ sep60, "✅ Converse API call completed successfully!"],
         true, true)

/-! ## Helper lemmas -/

/-- Lookup misses a list when the key differs from every stored key. -/
theorem lookup_none_of_not_key {β : Type} (l : List (String × β)) (s : String)
    (h : ∀ p ∈ l, s ≠ p.1) : l.lookup s = none := by
  induction l with
  | nil => rfl
  | cons a t ih =>
    obtain ⟨k, v⟩ := a
    have hk : (s == k) = false :=
      beq_eq_false_iff_ne.mpr (h (k, v) (List.mem_cons_self _ _))
    simpa [List.lookup, hk] using ih fun p hp => h p (List.mem_cons_of_mem _ hp)

/-! ## Claims -/

/-- Claim C1: when `inferenceConfig` is absent or an empty mapping the
normalizer substitutes exactly `{maxTokens: 4096, temperature: 0.7}`, and any
non-empty mapping (partial ones included) passes through unchanged with no
defaults merged in. -/
theorem c1_inference_config_all_or_nothing :
    normInferenceConfig none = defaultInferenceConfig ∧
    normInferenceConfig (some []) = defaultInferenceConfig ∧
    ∀ cfg : List (String × JVal), cfg ≠ [] →
      normInferenceConfig (some cfg) = cfg := by
  refine ⟨rfl, rfl, ?_⟩
  intro cfg h
  cases cfg with
  | nil => exact absurd rfl h
  | cons a l => rfl

/-- Witness for C1: the partial config `{maxTokens: 2000}` is passed through
as-is, not merged with the defaults. -/
theorem c1_witness :
    normInferenceConfig (some [("maxTokens", JVal.jnum 2000)]) =
      [("maxTokens", JVal.jnum 2000)] :=
  c1_inference_config_all_or_nothing.2.2 _ (by simp)

/-- Claim C3: every shortcut of the table resolves to its mapped fully
qualified identifier (in particular `claude-3.5-haiku`), and any string that
is not a key of the table resolves to itself. -/
theorem c3_model_shortcut_resolution :
    (∀ p ∈ commonModelIds, resolveModelId p.1 = p.2) ∧
    resolveModelId "claude-3.5-haiku" =
      "us.anthropic.claude-3-5-haiku-20241022-v1:0" ∧
    ∀ s : String, (∀ p ∈ commonModelIds, s ≠ p.1) → resolveModelId s = s := by
  refine ⟨by decide, rfl, fun s h => ?_⟩
  simp [resolveModelId, lookup_none_of_not_key _ _ h]

/-- Witness for C3: a string outside the table resolves to itself. -/
theorem c3_witness : resolveModelId "my-custom-model" = "my-custom-model" :=
  c3_model_shortcut_resolution.2.2 _ (by decide)

/-- A string of 103 characters whose last three are the ellipsis marker:
100 `a`s followed by `...`. -/
def longDotString : String :=
  String.mk (List.replicate 100 'a' ++ ['.', '.', '.'])

/-- Counterexample to C5 as stated: for this 103-character string the
100-character preview equals the string itself (its first 100 characters
followed by `...` reproduce it), so "preview = s iff L ≤ N" fails in the
only-if direction. -/
theorem c5_counterexample :
    ¬((truncPreview 100 longDotString = longDotString) ↔
        longDotString.length ≤ 100) := by
  have h1 : truncPreview 100 longDotString = longDotString := by decide
  have h2 : ¬(longDotString.length ≤ 100) := by decide
  exact fun hiff => h2 (hiff.mp h1)

/-- Claim C5 (amended): for every limit `n` the preview equals the first `n`
characters followed by `...` iff the length exceeds `n`, and it equals the
original string whenever the length is at most `n` (the converse of the
second part can fail for longer strings that end in the marker); the limit
is 100 at the message-preview site, 150 at the system-prompt site and 80 at
the tool-description site. -/
theorem c5_truncation_amended :
    (∀ (s : String) (n : Nat),
      (truncPreview n s = pyTake s n ++ "..." ↔ n < s.length) ∧
      (s.length ≤ n → truncPreview n s = s)) ∧
    (∀ (i : Nat) (r : Option String) (c : ContentBlock)
        (cs : List ContentBlock),
      msgPreviewLine i (Message.mk r (some (c :: cs))) =
        ["   " ++ toString i ++ ". " ++ (r.getD "unknown").toUpper ++ ": " ++
          truncPreview 100 (c.text.getD "")]) ∧
    (∀ t : String, systemPreview [SysBlock.mk (some t)] =
      ["\n🎯 System Prompt Preview:", "   " ++ truncPreview 150 t]) ∧
    ∀ nm desc : String,
      toolLine (Tool.mk (some (ToolSpec.mk (some nm) (some desc)))) =
        "   - " ++ nm ++ ": " ++ truncPreview 80 desc := by
  refine ⟨?_, fun i r c cs => rfl, fun t => rfl, fun nm desc => rfl⟩
  intro s n
  by_cases h : n < s.length
  · refine ⟨by simp [truncPreview, h], fun hle => absurd h (not_lt.mpr hle)⟩
  · have hle : s.length ≤ n := not_lt.mp h
    have htake : pyTake s n = s := congrArg String.mk (List.take_of_length_le hle)
    refine ⟨⟨fun heq => ?_, fun hlt => absurd hlt h⟩, fun _ => ?_⟩
    · rw [truncPreview, if_neg h] at heq
      have hlen := congrArg String.length heq
      simp [String.length_append] at hlen
      exact absurd hlen (by decide)
    · simp [truncPreview, h, htake]

/-- Witness for C5 (amended): a short string is rendered unchanged. -/
theorem c5_witness : truncPreview 100 "hi" = "hi" :=
  (c5_truncation_amended.1 "hi" 100).2 (by decide)

/-- Claim C2: the assembled request always carries `modelId`, `messages` and
`inferenceConfig`; it carries `system` iff the system list is non-empty and
`toolConfig` iff the toolConfig mapping is non-empty (truthy). -/
theorem c2_request_fields :
    ∀ (mid : String) (msgs : List Message) (cfg : List (String × JVal))
      (system : List SysBlock) (tc : ToolConfig),
      let keys := (buildApiParams mid msgs cfg system tc).map Prod.fst
      "modelId" ∈ keys ∧ "messages" ∈ keys ∧ "inferenceConfig" ∈ keys ∧
      ("system" ∈ keys ↔ system ≠ []) ∧
      ("toolConfig" ∈ keys ↔ tcTruthy tc = true) := by
  intro mid msgs cfg system tc
  by_cases hs : system = [] <;> by_cases ht : tcTruthy tc = true <;>
    simp [buildApiParams, hs, ht]

/-- Two string concatenations differ when the left parts already differ
within their first `n` characters. -/
theorem str_append_ne (n : Nat) (p q a b : String)
    (hp : n ≤ p.data.length) (hq : n ≤ q.data.length)
    (hne : p.data.take n ≠ q.data.take n) : p ++ a ≠ q ++ b := by
  intro he
  apply hne
  have hdata : p.data ++ a.data = q.data ++ b.data := congrArg String.data he
  have htk := congrArg (List.take n) hdata
  rw [List.take_append_eq_append_take, List.take_append_eq_append_take,
    Nat.sub_eq_zero_of_le hp, Nat.sub_eq_zero_of_le hq] at htk
  simpa using htk

/-- A string differs from a concatenation whose prefix already differs from
it within the first `n` characters. -/
theorem str_ne_append (n : Nat) (p q b : String)
    (hp : n ≤ p.data.length) (hq : n ≤ q.data.length)
    (hne : p.data.take n ≠ q.data.take n) : p ≠ q ++ b := by
  intro he
  exact str_append_ne n p q "" b hp hq hne (by simpa using he)

/-- A concrete error text matching both the model-validation pattern and the
access-denied pattern. -/
def mixedErrText : String := "ValidationException: model AccessDenied"

/-- Counterexample to C4 as stated: this error text contains the substring
`AccessDenied`, yet the classifier emits the model/region hint block and none
of the credentials/IAM hint lines, because the model-validation branch takes
precedence. -/
theorem c4_counterexample :
    strContainsSub mixedErrText "AccessDenied" = true ∧
    errorHints "m" "us-east-1" mixedErrText = modelHints "m" "us-east-1" ∧
    "   - Check your AWS credentials and permissions" ∉
      errorHints "m" "us-east-1" mixedErrText ∧
    "   - Ensure you have bedrock:InvokeModel permission" ∉
      errorHints "m" "us-east-1" mixedErrText := by decide

/-- Claim C4 (amended): an error text containing `accessdenied`
case-insensitively gets the credentials/IAM hint block, unless it also
matches the model-validation pattern (both `validationexception` and `model`
present case-insensitively), in which case that branch takes precedence. -/
theorem c4_access_denied_hints :
    ∀ (mid reg t : String),
      strContainsSub (pyLower t) "accessdenied" = true →
      (strContainsSub (pyLower t) "validationexception" &&
        strContainsSub (pyLower t) "model") = false →
      errorHints mid reg t = accessHints := by
  intro mid reg t h1 h2
  simp [errorHints, h1, h2]

/-- Witness for C4 (amended): a plain `AccessDenied` error produces the
credentials/IAM hint block. -/
theorem c4_witness :
    errorHints "m" "us-east-1" "An error occurred (AccessDenied)" =
      accessHints :=
  c4_access_denied_hints _ _ _ (by decide) (by decide)

/-- Claim C10: the classification only depends on the lowercased error text;
when the lowercased text contains both `validationexception` and `model` the
model/region block is emitted (even if `accessdenied` is also present) and
the credentials hint line is not; and the model/region block fires only when
both substrings are present. -/
theorem c10_error_classification_precedence :
    (∀ (mid reg t₁ t₂ : String), pyLower t₁ = pyLower t₂ →
      errorHints mid reg t₁ = errorHints mid reg t₂) ∧
    (∀ (mid reg t : String),
      strContainsSub (pyLower t) "validationexception" = true →
      strContainsSub (pyLower t) "model" = true →
      errorHints mid reg t = modelHints mid reg ∧
      "   - Check your AWS credentials and permissions" ∉
        errorHints mid reg t) ∧
    ∀ (mid reg t : String), errorHints mid reg t = modelHints mid reg →
      (strContainsSub (pyLower t) "validationexception" &&
        strContainsSub (pyLower t) "model") = true := by
  refine ⟨fun mid reg t₁ t₂ h => by simp only [errorHints, h], ?_, ?_⟩
  · intro mid reg t h1 h2
    have hfire : errorHints mid reg t = modelHints mid reg := by
      simp [errorHints, h1, h2]
    refine ⟨hfire, ?_⟩
    rw [hfire]
    simp only [modelHints, List.mem_cons, List.not_mem_nil, or_false]
    push_neg
    refine ⟨by decide, ?_, ?_, by decide⟩
    · refine str_ne_append 12 _ _ _ ?_ ?_ ?_ <;> decide
    · refine str_ne_append 12 _ _ _ ?_ ?_ ?_ <;> decide
  · intro mid reg t h
    by_cases hc : (strContainsSub (pyLower t) "validationexception" &&
        strContainsSub (pyLower t) "model") = true
    · exact hc
    · exfalso
      have hc' : (strContainsSub (pyLower t) "validationexception" &&
          strContainsSub (pyLower t) "model") = false := by simpa using hc
      by_cases ha : strContainsSub (pyLower t) "accessdenied" = true
      · have hacc : errorHints mid reg t = accessHints := by
          simp [errorHints, hc', ha]
        rw [hacc] at h
        have h1 := congrArg (fun l => l.get? 1) h
        simp only [accessHints, modelHints, List.get?] at h1
        have h1' : "   - Check your AWS credentials and permissions" =
            "   - Check if the model ID is correct: " ++ mid :=
          Option.some.inj h1
        exact (by refine str_ne_append 12 _ _ _ ?_ ?_ ?_ <;> decide :
          "   - Check your AWS credentials and permissions" ≠
            "   - Check if the model ID is correct: " ++ mid) h1'
      · have ha' : strContainsSub (pyLower t) "accessdenied" = false := by
          simpa using ha
        have hnil : errorHints mid reg t = [] := by
          simp [errorHints, hc', ha']
        rw [hnil] at h
        exact List.cons_ne_nil _ _ h.symm

/-- Witness for C10: a text matching both patterns (and also containing
`accessdenied`) yields exactly the model/region block. -/
theorem c10_witness :
    errorHints "mid" "reg" mixedErrText = modelHints "mid" "reg" ∧
    "   - Check your AWS credentials and permissions" ∉
      errorHints "mid" "reg" mixedErrText :=
  c10_error_classification_precedence.2.1 "mid" "reg" mixedErrText
    (by decide) (by decide)

/-- A concatenation differs from a plain string that already differs from its
left part within the first `n` characters. -/
theorem append_ne_str (n : Nat) (p a q : String)
    (hp : n ≤ p.data.length) (hq : n ≤ q.data.length)
    (hne : p.data.take n ≠ q.data.take n) : p ++ a ≠ q := by
  intro he
  exact str_append_ne n p q a "" hp hq hne (by simpa using he)

/-- Left cancellation for string concatenation. -/
theorem str_append_left_cancel (p a b : String) (h : p ++ a = p ++ b) :
    a = b := by
  have hd : p.data ++ a.data = p.data ++ b.data := congrArg String.data h
  have h2 : a.data = b.data := List.append_cancel_left hd
  cases a
  cases b
  exact congrArg String.mk h2

/-- Claim C6: when the payload file exists but holds malformed JSON, the run
prints exactly the invalid-JSON diagnostic (which carries the parser's
message), never issues the network call, and fails. -/
theorem c6_parse_error_no_network :
    ∀ (env : Env) (file : String) (mid : Option String) (msg : String),
      env.fileExists = true → env.loadResult = LoadOutcome.parseError msg →
      runCall env file mid =
        (["❌ Error: Invalid JSON in '" ++ file ++ "' - " ++ msg],
         false, false) := by
  intro env file mid msg h1 h2
  simp [runCall, h1, h2]

/-- Witness environment for C6: a file that exists but fails JSON parsing. -/
def envParse : Env where
  fileExists := true
  cwd := "/work"
  cwdListing := ["payload.json"]
  loadResult := LoadOutcome.parseError "Expecting value: line 1 column 1 (char 0)"
  region := "us-east-1"
  converse := fun _ => Except.error "unreachable"

/-- Witness for C6 at a concrete environment. -/
theorem c6_witness :
    runCall envParse "payload.json" none =
      (["❌ Error: Invalid JSON in 'payload.json' - Expecting value: line 1 column 1 (char 0)"],
       false, false) :=
  c6_parse_error_no_network envParse "payload.json" none _ rfl rfl

/-- Claim C7: for a missing payload file the run fails without a network
call, prints the not-found diagnostic, an explicit no-files message when the
working directory has no `.json` files, and otherwise lists a line `   - f`
exactly for the `.json` files `f` of the working directory. -/
theorem c7_missing_file_diagnostic :
    ∀ (env : Env) (file : String) (mid : Option String),
      env.fileExists = false →
      (runCall env file mid).2.1 = false ∧
      (runCall env file mid).2.2 = false ∧
      ("❌ Error: Payload file '" ++ file ++ "' not found") ∈
        (runCall env file mid).1 ∧
      (env.cwdListing.filter (fun f => pyEndsWith f ".json") = [] →
        "   - No JSON files found in current directory" ∈
          (runCall env file mid).1) ∧
      ∀ f : String, pyEndsWith f ".json" = true →
        (f ∈ env.cwdListing ↔ ("   - " ++ f) ∈ (runCall env file mid).1) := by
  intro env file mid h
  have hrun : runCall env file mid = (notFoundTrace env file, false, false) := by
    simp [runCall, h]
  rw [hrun]
  have ne1 : ∀ f : String,
      ("   - " ++ f) ≠ "❌ Error: Payload file '" ++ file ++ "' not found" := by
    intro f
    rw [String.append_assoc]
    refine str_append_ne 1 _ _ _ _ ?_ ?_ ?_ <;> decide
  have ne2 : ∀ f : String,
      ("   - " ++ f) ≠ "📁 Current directory: " ++ env.cwd := by
    intro f
    refine str_append_ne 1 _ _ _ _ ?_ ?_ ?_ <;> decide
  have ne3 : ∀ f : String, ("   - " ++ f) ≠ "📋 Available JSON files:" := by
    intro f
    refine append_ne_str 1 _ _ _ ?_ ?_ ?_ <;> decide
  by_cases hjs : env.cwdListing.filter (fun g => pyEndsWith g ".json") = []
  · have htr : notFoundTrace env file =
        ["❌ Error: Payload file '" ++ file ++ "' not found",
         "📁 Current directory: " ++ env.cwd,
         "📋 Available JSON files:",
         "   - No JSON files found in current directory"] := by
      simp [notFoundTrace, hjs]
    rw [htr]
    refine ⟨rfl, rfl, by simp, fun _ => by simp, ?_⟩
    intro f hf
    constructor
    · intro hmem
      have hfil : f ∈ env.cwdListing.filter (fun g => pyEndsWith g ".json") :=
        List.mem_filter.mpr ⟨hmem, hf⟩
      rw [hjs] at hfil
      exact absurd hfil (List.not_mem_nil f)
    · intro hmem
      rcases List.mem_cons.mp hmem with he | hmem
      · exact absurd he (ne1 f)
      rcases List.mem_cons.mp hmem with he | hmem
      · exact absurd he (ne2 f)
      rcases List.mem_cons.mp hmem with he | hmem
      · exact absurd he (ne3 f)
      rcases List.mem_cons.mp hmem with he | hmem
      · have hfix : ("   - No JSON files found in current directory" : String) =
            "   - " ++ "No JSON files found in current directory" := by decide
        rw [hfix] at he
        have := str_append_left_cancel _ _ _ he
        rw [this] at hf
        exact absurd hf (by decide)
      · exact absurd hmem (List.not_mem_nil _)
  · have htr : notFoundTrace env file =
        ["❌ Error: Payload file '" ++ file ++ "' not found",
         "📁 Current directory: " ++ env.cwd,
         "📋 Available JSON files:"] ++
        (env.cwdListing.filter (fun g => pyEndsWith g ".json")).map
          (fun f => "   - " ++ f) := by
      have : (env.cwdListing.filter (fun g => pyEndsWith g ".json")).isEmpty =
          false := by
        rw [List.isEmpty_eq_false_iff_exists_mem]
        rcases List.exists_mem_of_ne_nil _ hjs with ⟨x, hx⟩
        exact ⟨x, hx⟩
      simp [notFoundTrace, this]
    rw [htr]
    refine ⟨rfl, rfl, by simp, fun hc => absurd hc hjs, ?_⟩
    intro f hf
    constructor
    · intro hmem
      have hfil : f ∈ env.cwdListing.filter (fun g => pyEndsWith g ".json") :=
        List.mem_filter.mpr ⟨hmem, hf⟩
      exact List.mem_append_right _ (List.mem_map_of_mem _ hfil)
    · intro hmem
      rcases List.mem_append.mp hmem with hl | hr
      · rcases List.mem_cons.mp hl with he | hl
        · exact absurd he (ne1 f)
        rcases List.mem_cons.mp hl with he | hl
        · exact absurd he (ne2 f)
        rcases List.mem_cons.mp hl with he | hl
        · exact absurd he (ne3 f)
        · exact absurd hl (List.not_mem_nil _)
      · rcases List.mem_map.mp hr with ⟨g, hg, he⟩
        have : g = f := str_append_left_cancel _ _ _ he
        rw [this] at hg
        exact (List.mem_filter.mp hg).1

/-- Witness environment for C7: the payload file is missing and the working
directory holds one `.json` file and one other file. -/
def envMissing : Env where
  fileExists := false
  cwd := "/work"
  cwdListing := ["other.txt", "sample.json"]
  loadResult := LoadOutcome.readError "unreachable"
  region := "us-east-1"
  converse := fun _ => Except.error "unreachable"

/-- Witness for C7 at a concrete environment: the `.json` file is listed. -/
theorem c7_witness :
    (runCall envMissing "payload.json" none).2.1 = false ∧
    ("   - " ++ "sample.json") ∈ (runCall envMissing "payload.json" none).1 := by
  have h := c7_missing_file_diagnostic envMissing "payload.json" none rfl
  exact ⟨h.1, (h.2.2.2.2 "sample.json" (by decide)).mp (by decide)⟩

/-- Claim C8: the usage section always contains the input, output and total
token lines, and contains the cache-read (resp. cache-write) line exactly
when that count, defaulting to 0 when missing, is strictly positive. -/
theorem c8_usage_lines :
    ∀ u : Usage,
      ("   - Input tokens: " ++ fmtThousands (u.inputTokens.getD 0)) ∈
        usageLines u ∧
      ("   - Output tokens: " ++ fmtThousands (u.outputTokens.getD 0)) ∈
        usageLines u ∧
      ("   - Total tokens: " ++ fmtThousands (u.totalTokens.getD 0)) ∈
        usageLines u ∧
      (("   - Cache read tokens: " ++
          fmtThousands (u.cacheReadInputTokens.getD 0)) ∈ usageLines u ↔
        0 < u.cacheReadInputTokens.getD 0) ∧
      (("   - Cache write tokens: " ++
          fmtThousands (u.cacheWriteInputTokens.getD 0)) ∈ usageLines u ↔
        0 < u.cacheWriteInputTokens.getD 0) := by
  intro u
  have neRI : ∀ a b : String,
      ("   - Cache read tokens: " ++ a) ≠ "   - Input tokens: " ++ b := by
    intro a b
    refine str_append_ne 12 _ _ _ _ ?_ ?_ ?_ <;> decide
  have neRO : ∀ a b : String,
      ("   - Cache read tokens: " ++ a) ≠ "   - Output tokens: " ++ b := by
    intro a b
    refine str_append_ne 12 _ _ _ _ ?_ ?_ ?_ <;> decide
  have neRT : ∀ a b : String,
      ("   - Cache read tokens: " ++ a) ≠ "   - Total tokens: " ++ b := by
    intro a b
    refine str_append_ne 12 _ _ _ _ ?_ ?_ ?_ <;> decide
  have neRW : ∀ a b : String,
      ("   - Cache read tokens: " ++ a) ≠ "   - Cache write tokens: " ++ b := by
    intro a b
    refine str_append_ne 12 _ _ _ _ ?_ ?_ ?_ <;> decide
  have neWI : ∀ a b : String,
      ("   - Cache write tokens: " ++ a) ≠ "   - Input tokens: " ++ b := by
    intro a b
    refine str_append_ne 12 _ _ _ _ ?_ ?_ ?_ <;> decide
  have neWO : ∀ a b : String,
      ("   - Cache write tokens: " ++ a) ≠ "   - Output tokens: " ++ b := by
    intro a b
    refine str_append_ne 12 _ _ _ _ ?_ ?_ ?_ <;> decide
  have neWT : ∀ a b : String,
      ("   - Cache write tokens: " ++ a) ≠ "   - Total tokens: " ++ b := by
    intro a b
    refine str_append_ne 12 _ _ _ _ ?_ ?_ ?_ <;> decide
  have neWR : ∀ a b : String,
      ("   - Cache write tokens: " ++ a) ≠ "   - Cache read tokens: " ++ b := by
    intro a b
    refine str_append_ne 12 _ _ _ _ ?_ ?_ ?_ <;> decide
  refine ⟨by simp [usageLines], by simp [usageLines], by simp [usageLines],
    ⟨?_, fun hr => by simp [usageLines, hr]⟩,
    ⟨?_, fun hw => by simp [usageLines, hw]⟩⟩
  · intro hmem
    by_contra hr
    simp only [usageLines, if_neg hr, List.append_nil, List.nil_append,
      List.cons_append, List.mem_cons, List.mem_append, List.not_mem_nil,
      or_false] at hmem
    by_cases hw : 0 < u.cacheWriteInputTokens.getD 0
    · simp only [if_pos hw, List.mem_cons, List.not_mem_nil, or_false] at hmem
      rcases hmem with h | h | h | h
      · exact neRI _ _ h
      · exact neRO _ _ h
      · exact neRT _ _ h
      · exact neRW _ _ h
    · simp only [if_neg hw, List.append_nil, List.not_mem_nil, or_false]
        at hmem
      rcases hmem with h | h | h
      · exact neRI _ _ h
      · exact neRO _ _ h
      · exact neRT _ _ h
  · intro hmem
    by_contra hw
    simp only [usageLines, if_neg hw, List.append_nil, List.nil_append,
      List.cons_append, List.mem_cons, List.mem_append, List.not_mem_nil,
      or_false] at hmem
    by_cases hr : 0 < u.cacheReadInputTokens.getD 0
    · simp only [if_pos hr, List.mem_cons, List.not_mem_nil, or_false] at hmem
      rcases hmem with h | h | h | h
      · exact neWI _ _ h
      · exact neWO _ _ h
      · exact neWT _ _ h
      · exact neWR _ _ h
    · simp only [if_neg hr, List.append_nil, List.not_mem_nil, or_false]
        at hmem
      rcases hmem with h | h | h
      · exact neWI _ _ h
      · exact neWO _ _ h
      · exact neWT _ _ h

/-- A message whose `content` list is present but empty. -/
def emptyContentMsg : Message where
  role := some "user"
  content := some []

/-- Counterexample to C9 as stated: a payload with one message (non-empty
messages sequence) whose content list is empty produces only the history
header and no per-message line at all, so "one line per message" fails. -/
theorem c9_counterexample :
    convHistory [emptyContentMsg] = ["\n💬 Conversation History:"] ∧
    ([emptyContentMsg] : List Message).length = 1 := ⟨rfl, rfl⟩

/-- The per-message preview lines of the history section count exactly the
messages whose content list is present and non-empty. -/
theorem enumFrom_msgPreview_length :
    ∀ (msgs : List Message) (i : Nat),
      ((List.enumFrom i msgs).flatMap
        (fun p => msgPreviewLine p.1 p.2)).length =
        msgs.countP (fun m => !(m.content.getD []).isEmpty) := by
  intro msgs
  induction msgs with
  | nil => intro i; rfl
  | cons m t ih =>
    intro i
    rw [List.enumFrom_cons, List.flatMap_cons, List.length_append, ih,
      List.countP_cons]
    cases hc : m.content.getD [] with
    | nil => simp [msgPreviewLine, hc]
    | cons c rest => simp [msgPreviewLine, hc, Nat.add_comm]

/-- Claim C9 (amended): for every non-empty messages sequence the history
section is the header followed by one line for each message whose content
list is present and non-empty (messages with a missing or empty content list
are skipped); each emitted line carries the 1-based index, the uppercased
role (defaulting to `unknown`) and the first block's text truncated to 100
characters. -/
theorem c9_conversation_preview_amended :
    ∀ msgs : List Message, msgs ≠ [] →
      convHistory msgs =
        "\n💬 Conversation History:" ::
          (List.enumFrom 1 msgs).flatMap (fun p => msgPreviewLine p.1 p.2) ∧
      (convHistory msgs).length =
        1 + msgs.countP (fun m => !(m.content.getD []).isEmpty) ∧
      (∀ (i : Nat) (r : Option String) (c : ContentBlock)
          (cs : List ContentBlock),
        msgPreviewLine i (Message.mk r (some (c :: cs))) =
          ["   " ++ toString i ++ ". " ++ (r.getD "unknown").toUpper ++ ": " ++
            truncPreview 100 (c.text.getD "")]) ∧
      (∀ (i : Nat) (r : Option String),
        msgPreviewLine i (Message.mk r (some [])) = [] ∧
        msgPreviewLine i (Message.mk r none) = []) := by
  intro msgs h
  have hne : msgs.isEmpty = false := by
    cases msgs with
    | nil => exact absurd rfl h
    | cons a t => rfl
  refine ⟨by rw [convHistory, hne]; rfl, ?_,
    fun i r c cs => rfl, fun i r => ⟨rfl, rfl⟩⟩
  rw [convHistory, hne]
  simp only [Bool.false_eq_true, if_false, List.length_cons,
    enumFrom_msgPreview_length]
  omega

/-- Witness for C9 (amended) at a concrete two-message payload: the first
message has text content, the second an empty content list, so exactly one
preview line follows the header. -/
theorem c9_witness :
    (convHistory [Message.mk (some "user") (some [ContentBlock.mk (some "hi")]),
        Message.mk (some "assistant") (some [])]).length =
      1 + [Message.mk (some "user") (some [ContentBlock.mk (some "hi")]),
        Message.mk (some "assistant") (some [])].countP
          (fun m => !(m.content.getD []).isEmpty) :=
  (c9_conversation_preview_amended _ (by simp)).2.1

/-- Witness for C2 at a concrete request: with an empty system list and an
empty toolConfig dict, both optional fields are omitted. -/
theorem c2_witness :
    ("system" ∈ (buildApiParams "m" [] defaultInferenceConfig []
        (ToolConfig.mk none [])).map Prod.fst ↔ ([] : List SysBlock) ≠ []) ∧
    ("toolConfig" ∈ (buildApiParams "m" [] defaultInferenceConfig []
        (ToolConfig.mk none [])).map Prod.fst ↔
      tcTruthy (ToolConfig.mk none []) = true) :=
  ⟨(c2_request_fields "m" [] defaultInferenceConfig []
      (ToolConfig.mk none [])).2.2.2.1,
   (c2_request_fields "m" [] defaultInferenceConfig []
      (ToolConfig.mk none [])).2.2.2.2⟩

/-- Witness for C8 at a concrete usage record with a positive cache-read
count and no cache-write key. -/
theorem c8_witness :
    ("   - Cache read tokens: " ++ fmtThousands
        ((Usage.mk (some 10) (some 5) (some 15) (some 3)
          none).cacheReadInputTokens.getD 0)) ∈
      usageLines (Usage.mk (some 10) (some 5) (some 15) (some 3) none) :=
  (c8_usage_lines (Usage.mk (some 10) (some 5) (some 15) (some 3)
    none)).2.2.2.1.mpr (by decide)
